import Mathlib

/-
Verification of the valuation module `valuations.py` of the Talleyman/stock-analyzer
repository.  The four functions of that module are shallowly embedded below:
exact rational arithmetic (ℚ) models Python/numpy floating point for the
closed-form dividend and earnings models, and real arithmetic (ℝ) models the
discounted-cash-flow estimator, whose CAGR uses a real (non-integer) power.
Fallible Python evaluation (IndexError, NameError, ZeroDivisionError) is
modelled with `Except`.  Randomness (`np.random.normal(scale=s, size=10)`) is
modelled by an oracle of standard-normal draws `z : ℕ → ℝ`, each draw scaled by
`s`, which is exactly how numpy realises a scale parameter.

Note on the source: the `def` line of `div_discount_model` (line 70) places
non-default parameters after default ones; we model its body with all
parameters passed positionally.  The loop `xrange(0,100)` is Python 2.
-/

namespace StockAnalyzer

/-- Errors raised by the Python runtime while executing code of `valuations.py`. -/
inductive PyError where
  | nameError (n : String)
  | indexError
  | zeroDivisionError
  deriving DecidableEq

/-- Result of evaluating a Python expression that may raise. -/
abbrev PyResult (α : Type) := Except PyError α

/-- Python/numpy indexing `l[i]`: raises IndexError when out of range. -/
def npIndex {α : Type} (l : List α) (i : ℕ) : PyResult α :=
  match l.get? i with
  | some v => pure v
  | none => throw PyError.indexError

/-- numpy `np.arange a b`: the integers a, a+1, ..., b-1. -/
def npArange (a b : ℕ) : List ℕ :=
  (List.range (b - a)).map (fun j => a + j)

/-- numpy `np.mean` on a rational series: sum divided by length. -/
def listMean (xs : List ℚ) : ℚ := xs.sum / xs.length

/-- Lines 91-100 of valuations.py:
`return (current_div*(1+const_growth))/(discount-const_growth)`.
The operands are Python floats, and Python float division raises
ZeroDivisionError on a zero denominator; no other validation is performed. -/
def gordon_growth_model (current_div const_growth discount : ℚ) : PyResult ℚ :=
  if discount - const_growth = 0 then throw PyError.zeroDivisionError
  else pure (current_div * (1 + const_growth) / (discount - const_growth))

/-- Lines 70-89 of valuations.py, the multistage dividend discount model body:
two compounding phases, a terminal (perpetuity) term, and discounting of the
concatenated series at period indices `1 .. len(proj1)+len(proj2)+len(const)`.
All arithmetic here is numpy elementwise arithmetic, which never raises on a
zero denominator (it produces non-finite values with a warning); this exact
model is therefore used under the side condition `discount ≠ const_growth`,
and, matching the source, contains no validation of that condition. -/
def div_discount_model (current_div discount div_growth_rate1 : ℚ) (div_period1 : ℕ)
    (div_growth_rate2 : ℚ) (div_period2 : ℕ) (const_growth : ℚ) : ℚ :=
  let proj1 := (npArange 1 (div_period1 + 1)).map
    (fun k => current_div * (1 + div_growth_rate1) ^ k)
  let proj2 := (npArange 1 (div_period2 + 1)).map
    (fun k => proj1.getD (proj1.length - 1) 0 * (1 + div_growth_rate2) ^ k)
  let const := [proj2.getD (proj2.length - 1) 0 * (1 + const_growth) / (discount - const_growth)]
  let dis := List.zipWith (fun x k => x / (1 + discount) ^ k) (proj1 ++ proj2 ++ const)
    (npArange 1 (proj1.length + proj2.length + const.length + 1))
  dis.sum

/-- Names bound at the top level of the module `valuations.py`: the imported
numpy alias and the four function definitions. -/
def valuationsTopLevelNames : List String :=
  ["np", "discount_cash_flow", "ben_graham_formula", "div_discount_model", "gordon_growth_model"]

/-- Names bound in the scope of the body of `ben_graham_formula` when line 60
executes: its six parameters and the local `adjusted_eps` assigned on line 59. -/
def benGrahamLocalNames : List String :=
  ["eps", "proj_growth", "risk_free_rate", "safe_eps", "safe_growth", "adjust", "adjusted_eps"]

/-- Line 60 of valuations.py: `const = 7 if safe.eps else 8`.  Evaluating the
condition first resolves the identifier `safe`; resolution succeeds only if
`safe` is a local or module-level name, and otherwise raises NameError.  (The
branch value 7 below is irrelevant: the lookup decidably fails, since the
parameter is spelled `safe_eps`, not `safe`.) -/
def benGrahamConst : PyResult ℚ :=
  if "safe" ∈ benGrahamLocalNames ++ valuationsTopLevelNames then pure 7
  else throw (PyError.nameError ("safe"))

/-- Python arithmetic on a bool: `True` is 1 and `False` is 0. -/
def pyBool (b : Bool) : ℚ := if b then 1 else 0

/-- Lines 45-68 of valuations.py, the Graham earnings formula, with statements
in source order: `adjusted_eps` (line 59), `const` (line 60, which resolves the
undefined name `safe`), `g` (line 61), `val` (line 63, reading `eps[10]`), and
`val_adj` (lines 64-67, whose numerator multiplies by the boolean `adjust`
itself, not by the average EPS).  Division is numpy float division (line 58
converts `eps` to an array), which does not raise on a zero denominator, so the
model is exact for `risk_free_rate ≠ 0`. -/
def ben_graham_formula (eps : List ℚ) (proj_growth risk_free_rate : ℚ)
    ( safe_eps safe_growth adjust : Bool) : PyResult (ℚ × Option ℚ) := do
  let adjusted_eps : Option ℚ := if adjust then some (listMean eps) else none
  let const ← benGrahamConst
  let g : ℚ := if safe_growth then 3 / 2 else 2
  let epsTen ← npIndex eps 10
  let val := epsTen * (const + g * (proj_growth * 100) * 4.4) / (risk_free_rate * 100)
  let val_adj : Option ℚ :=
    if adjust then
      some (pyBool adjust * (const + g * (proj_growth * 100) * 4.4) / (risk_free_rate * 100))
    else none
  pure (val, val_adj)

/-
The discounted-cash-flow estimator (lines 4-43 of valuations.py), modelled
over ℝ: its CAGR takes a real (non-integer) power, and the noise scale is a
square root.  The random draws of `np.random.normal(scale=s, size=10)` are
modelled as `s * z j` for an oracle `z` of standard-normal draws; the oracles
`z1 z2 : ℕ → ℕ → ℝ` of `discount_cash_flow` give the draws of line 34 and
line 35 for each of the 100 trials.
-/

/-- numpy `np.mean` on a real series. -/
noncomputable def listMeanR (xs : List ℝ) : ℝ := xs.sum / xs.length

/-- numpy `np.std(xs, ddof=1)`: the Bessel-corrected sample standard
deviation, the square root of the sum of squared deviations from the mean
divided by n - 1. -/
noncomputable def np_std_ddof1 (xs : List ℝ) : ℝ :=
  Real.sqrt ((xs.map (fun x => (x - listMeanR xs) ^ 2)).sum / ((xs.length : ℝ) - 1))

/-- Python division of a float by the int `n` (line 22, `1.0/n`): raises
ZeroDivisionError when `n = 0`. -/
noncomputable def pyDivNat (a : ℝ) (n : ℕ) : PyResult ℝ :=
  if n = 0 then throw PyError.zeroDivisionError else pure (a / n)

/-- numpy `(1+r)**np.arange(a, b)`: the elementwise powers. -/
noncomputable def powersList (r : ℝ) (a b : ℕ) : List ℝ :=
  (npArange a b).map (fun k => (1 + r) ^ k)

/-- numpy `np.random.normal(scale=s, size=10)` realised from the oracle `z`
of standard-normal draws: each draw is the scale times a standard draw. -/
noncomputable def noiseList (s : ℝ) (z : ℕ → ℝ) : List ℝ :=
  (List.range 10).map (fun j => s * z j)

/-- Line 34 of valuations.py:
`proj = fcf[9]*((1+proj_rate1)**np.arange(1,11)) + np.random.normal(scale=np.std(fcf,ddof=1), size=10)`.
Reading `fcf[9]` raises IndexError when the series is shorter than 10. -/
noncomputable def dcfProj (fcf : List ℝ) (proj_rate1 : ℝ) (z : ℕ → ℝ) : PyResult (List ℝ) := do
  let base ← npIndex fcf 9
  pure (List.zipWith (fun p e => base * p + e) (powersList proj_rate1 1 11)
    (noiseList (np_std_ddof1 fcf) z))

/-- Line 35 of valuations.py:
`proj2 = proj[9]*((1+proj_rate2)**np.arange(1,11)) + np.random.normal(scale=np.std(fcf,ddof=1), size=10)`,
with `projNine` the value `proj[9]` (an index into the length-10 array of
line 34, which cannot fail). -/
noncomputable def dcfProjTwo (fcf : List ℝ) (projNine proj_rate2 : ℝ) (z : ℕ → ℝ) : List ℝ :=
  List.zipWith (fun p e => projNine * p + e) (powersList proj_rate2 1 11)
    (noiseList (np_std_ddof1 fcf) z)

/-- Lines 34-42 of valuations.py: one iteration of the 100-trial simulation
loop.  `d` is the CAPM discount rate computed on line 26; the pair returned
is `(sum(dis)/shares, sum(dis2)/shares)`, the two per-share estimates stored
into `val1numbers[i]` and `val2numbers[i]`. -/
noncomputable def dcfTrial (fcf : List ℝ) (proj_rate1 proj_rate2 discount d shares : ℝ)
    (z1 z2 : ℕ → ℝ) : PyResult (ℝ × ℝ) := do
  let proj ← dcfProj fcf proj_rate1 z1
  let proj2 := dcfProjTwo fcf (proj.getD 9 0) proj_rate2 z2
  let projtotal := proj ++ proj2
  let dis := List.zipWith (fun x k => x / (1 + discount) ^ k) projtotal (npArange 1 21)
  let dis2 := List.zipWith (fun x k => x / (1 + d) ^ k) projtotal (npArange 1 21)
  pure (dis.sum / shares, dis2.sum / shares)

/-- Sequencing of a fallible computation over a list (the `for i in
xrange(0,100)` loop): stops at the first raised error. -/
def exceptMapList {α β : Type} (f : α → PyResult β) : List α → PyResult (List β)
  | [] => pure []
  | a :: l => do
    let b ← f a
    let bs ← exceptMapList f l
    pure (b :: bs)

/-- Lines 4-43 of valuations.py, `discount_cash_flow`.  In source order:
`n = len(fcf)-1`; the read of `fcf[0]` (IndexError on an empty list) and its
in-place replacement by the mean when negative; the CAGR
`(fcf[n]/fcf[0])**(1.0/n) - 1` (ZeroDivisionError when `n = 0`, real power
modelling the float `**`); the CAPM rate `d` of line 26; then 100 trials, and
the return of `(cagr, val1numbers, val2numbers)`. -/
noncomputable def discount_cash_flow (fcf0 : List ℝ)
    (proj_rate1 proj_rate2 discount shares beta : ℝ) (z1 z2 : ℕ → ℕ → ℝ) :
    PyResult (ℝ × List ℝ × List ℝ) := do
  let n : ℕ := fcf0.length - 1
  let first ← npIndex fcf0 0
  let fcf : List ℝ := if first < 0 then fcf0.set 0 (listMeanR fcf0) else fcf0
  let nInv ← pyDivNat 1 n
  let cagr : ℝ := (fcf.getD n 0 / fcf.getD 0 0) ^ nInv - 1
  let d : ℝ := (2.5 + beta * (9.11 - 2.5)) / 100
  let trials ← exceptMapList
    (fun i => dcfTrial fcf proj_rate1 proj_rate2 discount d shares (z1 i) (z2 i))
    (List.range 100)
  pure (cagr, trials.map Prod.fst, trials.map Prod.snd)

/-- The preprocessing of lines 20-21: the first entry is replaced by the mean
of the (full, original) series when it is negative. -/
noncomputable def dcfAdjust (fcf : List ℝ) : List ℝ :=
  if fcf.getD 0 0 < 0 then fcf.set 0 (listMeanR fcf) else fcf

/-- Claim C6's description of the reported growth rate, written from the
claim's words: `cagr = (last/first)^(1/(n-1)) - 1` where `n` is the series
length, after the proviso that a negative earliest observation is first
replaced by the arithmetic mean of the full history. -/
noncomputable def cagr_claimed (fcf : List ℝ) : ℝ :=
  let fcfAdj := dcfAdjust fcf
  (fcfAdj.getD (fcfAdj.length - 1) 0 / fcfAdj.getD 0 0) ^ ((1 : ℝ) / ((fcf.length : ℝ) - 1)) - 1

/-- Claim C3's description of the first ten projected values, written from
the claim's words: the most recent historical observation (the LAST element
of the series) compounded at `proj_rate1` for years 1..10, each point
perturbed by noise scaled by the Bessel-corrected standard deviation. -/
noncomputable def dcfProj_claimed (fcf : List ℝ) (proj_rate1 : ℝ) (z : ℕ → ℝ) : List ℝ :=
  (List.range 10).map
    (fun j => fcf.getD (fcf.length - 1) 0 * (1 + proj_rate1) ^ (j + 1) + np_std_ddof1 fcf * z j)

/-- Closed form of the k-th projected value (k = 1..20) of one trial, as
computed by lines 34-36: the first ten points compound `fcf[9]` at rate 1,
the second ten compound the tenth projected point at rate 2. -/
noncomputable def dcfProjPoint (fcf : List ℝ) (r1 r2 : ℝ) (z1 z2 : ℕ → ℝ) (k : ℕ) : ℝ :=
  if k ≤ 10 then fcf.getD 9 0 * (1 + r1) ^ k + np_std_ddof1 fcf * z1 (k - 1)
  else (fcf.getD 9 0 * (1 + r1) ^ 10 + np_std_ddof1 fcf * z1 9) * (1 + r2) ^ (k - 10)
    + np_std_ddof1 fcf * z2 (k - 11)

/-- Closed form of one stored per-share estimate: the twenty projected values
discounted at period indices 1..20 at the given rate, summed, divided by the
share count. -/
noncomputable def dcfTrialVal (fcf : List ℝ) (r1 r2 rate shares : ℝ) (z1 z2 : ℕ → ℝ) : ℝ :=
  ((List.range 20).map
    (fun j => dcfProjPoint fcf r1 r2 z1 z2 (j + 1) / (1 + rate) ^ (j + 1))).sum / shares

/-- The CAGR projection of `discount_cash_flow`: a function of the history
alone, raising exactly the errors the full call raises. -/
noncomputable def dcfCagrExcept (fcf0 : List ℝ) : PyResult ℝ := do
  let n : ℕ := fcf0.length - 1
  let first ← npIndex fcf0 0
  let fcf : List ℝ := if first < 0 then fcf0.set 0 (listMeanR fcf0) else fcf0
  let nInv ← pyDivNat 1 n
  let _ ← npIndex fcf 9
  pure ((fcf.getD n 0 / fcf.getD 0 0) ^ nInv - 1)

/-
Helper lemmas (list-shape computations and evaluation of the if-guard of
`gordon_growth_model`).
-/

theorem npArange_one_six : npArange 1 6 = [1, 2, 3, 4, 5] := rfl

theorem npArange_one_twelve : npArange 1 12 = [1, 2, 3, 4, 5, 6, 7, 8, 9, 10, 11] := rfl

theorem getD_four_of_five {α : Type} (a b c d e x : α) : List.getD [a, b, c, d, e] 4 x = e := rfl

theorem gordon_eval (current_div const_growth discount v : ℚ)
    (hne : discount - const_growth ≠ 0)
    (hval : current_div * (1 + const_growth) / (discount - const_growth) = v) :
    gordon_growth_model current_div const_growth discount = Except.ok v := by
  unfold gordon_growth_model
  rw [if_neg hne, hval]
  rfl

/-
Claim theorems for the closed-form models.
-/

/-- C5: every invocation of `ben_graham_formula`, regardless of its arguments,
raises an unhandled NameError before returning, because line 60 of
valuations.py reads the attribute `safe.eps` of a name `safe` that is defined
nowhere in the module; no call can produce a result value. -/
theorem claim_C5_ben_graham_always_raises (eps : List ℚ) (proj_growth risk_free_rate : ℚ)
    ( safe_eps safe_growth adjust : Bool) :
    ben_graham_formula eps proj_growth risk_free_rate safe_eps safe_growth adjust
      = Except.error (PyError.nameError ("safe")) := rfl

/-- C2: evaluating `ben_graham_formula` at a fully valid input (eleven EPS
entries, nonzero risk-free rate 1/40, default-like flags) raises the NameError
of line 60 instead of returning the value the claimed formula prescribes; the
adjusted value, had execution continued, would be computed from the boolean
`adjust` rather than from the average EPS (line 65). -/
theorem claim_C2_code_raises_at_valid_input :
    ben_graham_formula [1, 1, 1, 1, 1, 1, 1, 1, 1, 1, 2] (1 / 10) (1 / 40) false false true
      = Except.error (PyError.nameError ("safe")) := rfl

/-- C1 counterexample: with `discount = 1/20 < const_growth = 1/10`,
`gordon_growth_model` signals no error and returns -2200, a value computed
from the negative perpetuity denominator, and `div_discount_model` likewise
returns a (negative) value rather than failing. -/
theorem claim_C1_cex :
    gordon_growth_model 100 (1 / 10) (1 / 20) = Except.ok (-2200) ∧
      div_discount_model 100 (1 / 20) (1 / 10) 5 (1 / 10) 5 (1 / 10) < 0 := by
  constructor
  · exact gordon_eval 100 (1 / 10) (1 / 20) (-2200) (by norm_num) (by norm_num)
  · norm_num [div_discount_model, npArange_one_six, npArange_one_twelve, getD_four_of_five]

/-- C1 amended: neither function validates `discount > const_growth`.  For
every `discount < const_growth` (with a positive dividend and growth above -1)
`gordon_growth_model` returns, without signalling any error, a negative value
computed from the negative perpetuity denominator; only exact equality
`discount = const_growth` raises (ZeroDivisionError of Python float division),
and `div_discount_model`, whose arithmetic is numpy elementwise arithmetic,
never raises at all. -/
theorem claim_C1_amended (current_div const_growth discount : ℚ)
    (hlt : discount < const_growth) (hg : -1 < const_growth) (hD : 0 < current_div) :
    ∃ v, gordon_growth_model current_div const_growth discount = Except.ok v ∧ v < 0 := by
  have hne : discount - const_growth ≠ 0 := by
    intro h
    nlinarith [sub_eq_zero.mp h]
  refine ⟨current_div * (1 + const_growth) / (discount - const_growth),
    gordon_eval _ _ _ _ hne rfl, ?_⟩
  apply div_neg_of_pos_of_neg
  · nlinarith
  · linarith

theorem claim_C1_witness :
    (1 / 20 : ℚ) < 1 / 10 ∧ (-1 : ℚ) < 1 / 10 ∧ (0 : ℚ) < 50 ∧
      (∃ v, gordon_growth_model 50 (1 / 10) (1 / 20) = Except.ok v ∧ v < 0) :=
  ⟨by norm_num, by norm_num, by norm_num,
    claim_C1_amended 50 (1 / 10) (1 / 20) (by norm_num) (by norm_num) (by norm_num)⟩

/-- C8 counterexample: the degenerate call (both growth phases and the
terminal growth all 0, discount 1/10 > 0, dividend 100) does not equal the
Gordon growth value of the dividend grown one year: `gordon_growth_model`
gives 1000, while `div_discount_model` returns 275311670611000/285311670611
(about 964.95), because the terminal perpetuity is discounted at period index
11 rather than 10. -/
theorem claim_C8_cex :
    gordon_growth_model 100 0 (1 / 10) = Except.ok 1000 ∧
      div_discount_model 100 (1 / 10) 0 5 0 5 0 ≠ 1000 := by
  constructor
  · exact gordon_eval 100 0 (1 / 10) 1000 (by norm_num) (by norm_num)
  · norm_num [div_discount_model, npArange_one_six, npArange_one_twelve, getD_four_of_five]

/-- C8 amended: the degenerate call `div_discount_model D d g 5 g 5 g` (all
growth rates equal, `d ≠ g`) equals the Gordon growth value of the dividend
grown one year MINUS the correction `D*d*(1+g)^11 / ((d-g)*(1+d)^11)`: the
code discounts the terminal perpetuity one period late (index 11, the final
index of the concatenated series, instead of 10), so exact equality with the
Gordon value fails whenever `D*d ≠ 0`. -/
theorem claim_C8_amended (D g d : ℚ) (hdg : d ≠ g) (hd1 : (1 : ℚ) + d ≠ 0) (v : ℚ)
    (hv : gordon_growth_model D g d = Except.ok v) :
    div_discount_model D d g 5 g 5 g
      = v - D * d * (1 + g) ^ 11 / ((d - g) * (1 + d) ^ 11) := by
  have hne : d - g ≠ 0 := sub_ne_zero.mpr hdg
  unfold gordon_growth_model at hv
  rw [if_neg hne] at hv
  have hv2 : v = D * (1 + g) / (d - g) := (Except.ok.inj hv).symm
  subst hv2
  norm_num [div_discount_model, npArange_one_six, npArange_one_twelve, getD_four_of_five]
  have hQ : (d - g) * (1 + d) ^ 11 ≠ 0 := mul_ne_zero hne (pow_ne_zero 11 hd1)
  rw [div_div]
  rw [show D * (1 + g) / (1 + d)
      = D * (1 + g) * ((d - g) * (1 + d) ^ 10) / ((d - g) * (1 + d) ^ 11) from by
    rw [div_eq_div_iff hd1 hQ]; ring]
  rw [show D * (1 + g) ^ 2 / (1 + d) ^ 2
      = D * (1 + g) ^ 2 * ((d - g) * (1 + d) ^ 9) / ((d - g) * (1 + d) ^ 11) from by
    rw [div_eq_div_iff (pow_ne_zero 2 hd1) hQ]; ring]
  rw [show D * (1 + g) ^ 3 / (1 + d) ^ 3
      = D * (1 + g) ^ 3 * ((d - g) * (1 + d) ^ 8) / ((d - g) * (1 + d) ^ 11) from by
    rw [div_eq_div_iff (pow_ne_zero 3 hd1) hQ]; ring]
  rw [show D * (1 + g) ^ 4 / (1 + d) ^ 4
      = D * (1 + g) ^ 4 * ((d - g) * (1 + d) ^ 7) / ((d - g) * (1 + d) ^ 11) from by
    rw [div_eq_div_iff (pow_ne_zero 4 hd1) hQ]; ring]
  rw [show D * (1 + g) ^ 5 / (1 + d) ^ 5
      = D * (1 + g) ^ 5 * ((d - g) * (1 + d) ^ 6) / ((d - g) * (1 + d) ^ 11) from by
    rw [div_eq_div_iff (pow_ne_zero 5 hd1) hQ]; ring]
  rw [show D * (1 + g) ^ 5 * (1 + g) / (1 + d) ^ 6
      = D * (1 + g) ^ 5 * (1 + g) * ((d - g) * (1 + d) ^ 5) / ((d - g) * (1 + d) ^ 11) from by
    rw [div_eq_div_iff (pow_ne_zero 6 hd1) hQ]; ring]
  rw [show D * (1 + g) ^ 5 * (1 + g) ^ 2 / (1 + d) ^ 7
      = D * (1 + g) ^ 5 * (1 + g) ^ 2 * ((d - g) * (1 + d) ^ 4) / ((d - g) * (1 + d) ^ 11) from by
    rw [div_eq_div_iff (pow_ne_zero 7 hd1) hQ]; ring]
  rw [show D * (1 + g) ^ 5 * (1 + g) ^ 3 / (1 + d) ^ 8
      = D * (1 + g) ^ 5 * (1 + g) ^ 3 * ((d - g) * (1 + d) ^ 3) / ((d - g) * (1 + d) ^ 11) from by
    rw [div_eq_div_iff (pow_ne_zero 8 hd1) hQ]; ring]
  rw [show D * (1 + g) ^ 5 * (1 + g) ^ 4 / (1 + d) ^ 9
      = D * (1 + g) ^ 5 * (1 + g) ^ 4 * ((d - g) * (1 + d) ^ 2) / ((d - g) * (1 + d) ^ 11) from by
    rw [div_eq_div_iff (pow_ne_zero 9 hd1) hQ]; ring]
  rw [show D * (1 + g) ^ 5 * (1 + g) ^ 5 / (1 + d) ^ 10
      = D * (1 + g) ^ 5 * (1 + g) ^ 5 * ((d - g) * (1 + d)) / ((d - g) * (1 + d) ^ 11) from by
    rw [div_eq_div_iff (pow_ne_zero 10 hd1) hQ]; ring]
  rw [show D * (1 + g) / (d - g)
      = D * (1 + g) * (1 + d) ^ 11 / ((d - g) * (1 + d) ^ 11) from by
    rw [div_eq_div_iff hne hQ]; ring]
  simp only [div_add_div_same, div_sub_div_same]
  refine congrArg (fun t => t / ((d - g) * (1 + d) ^ 11)) ?_
  ring

theorem claim_C8_witness :
    (1 / 10 : ℚ) ≠ 0 ∧ (1 : ℚ) + 1 / 10 ≠ 0 ∧
      gordon_growth_model 100 0 (1 / 10) = Except.ok 1000 ∧
      div_discount_model 100 (1 / 10) 0 5 0 5 0
        = 1000 - 100 * (1 / 10) * (1 + 0) ^ 11 / ((1 / 10 - 0) * (1 + 1 / 10) ^ 11) :=
  ⟨by norm_num, by norm_num, gordon_eval 100 0 (1 / 10) 1000 (by norm_num) (by norm_num),
    claim_C8_amended 100 0 (1 / 10) (by norm_num) (by norm_num) 1000
      (gordon_eval 100 0 (1 / 10) 1000 (by norm_num) (by norm_num))⟩

/-- C10: for valid inputs (positive dividend, discount above growth, growth
above -1) `gordon_growth_model` is strictly increasing in `current_div` and in
`const_growth`, and strictly decreasing in `discount`, the other two
parameters held fixed. -/
theorem claim_C10_gordon_monotone (D D2 g g2 d d2 : ℚ)
    (hD : 0 < D) (hDD : D < D2) (hg : -1 < g) (hgg : g < g2) (hgd : g2 < d) (hdd : d < d2) :
    (∀ v w, gordon_growth_model D g d = Except.ok v →
      gordon_growth_model D2 g d = Except.ok w → v < w) ∧
    (∀ v w, gordon_growth_model D g d = Except.ok v →
      gordon_growth_model D g2 d = Except.ok w → v < w) ∧
    (∀ v w, gordon_growth_model D g d = Except.ok v →
      gordon_growth_model D g d2 = Except.ok w → w < v) := by
  have h1g : (0 : ℚ) < 1 + g := by linarith
  have h1d : (0 : ℚ) < 1 + d := by linarith
  have hdg : (0 : ℚ) < d - g := by linarith
  have hdg2 : (0 : ℚ) < d - g2 := by linarith
  have hd2g : (0 : ℚ) < d2 - g := by linarith
  have ext : ∀ (a b c : ℚ), 0 < c - b → ∀ v, gordon_growth_model a b c = Except.ok v →
      v = a * (1 + b) / (c - b) := by
    intro a b c hcb v hv
    unfold gordon_growth_model at hv
    rw [if_neg (ne_of_gt hcb)] at hv
    exact (Except.ok.inj hv).symm
  refine ⟨?_, ?_, ?_⟩
  · intro v w hv hw
    rw [ext D g d hdg v hv, ext D2 g d hdg w hw]
    exact div_lt_div_of_pos_right (mul_lt_mul_of_pos_right hDD h1g) hdg
  · intro v w hv hw
    rw [ext D g d hdg v hv, ext D g2 d hdg2 w hw]
    rw [div_lt_div_iff₀ hdg hdg2]
    nlinarith [mul_pos hD (mul_pos (by linarith : (0 : ℚ) < g2 - g) h1d)]
  · intro v w hv hw
    rw [ext D g d hdg v hv, ext D g d2 hd2g w hw]
    exact div_lt_div_of_pos_left (by positivity) hdg (by linarith)

/-
Evaluation lemmas for the Except-monad embedding and the DCF estimator.
-/

theorem pyBind_ok {α β : Type} (a : α) (f : α → PyResult β) :
    (Except.ok a >>= f : PyResult β) = f a := rfl

theorem pyBind_pure {α β : Type} (a : α) (f : α → PyResult β) :
    ((pure a : PyResult α) >>= f) = f a := rfl

theorem pyBind_err {α β : Type} (e : PyError) (f : α → PyResult β) :
    ((Except.error e : PyResult α) >>= f) = Except.error e := rfl

theorem pyThrow {α : Type} (e : PyError) : (throw e : PyResult α) = Except.error e := rfl

theorem pyMap_ok {α β : Type} (f : α → β) (a : α) :
    (Except.ok a : PyResult α).map f = Except.ok (f a) := rfl

theorem pyMap_err {α β : Type} (f : α → β) (e : PyError) :
    (Except.error e : PyResult α).map f = Except.error e := rfl

theorem npIndex_ok {α : Type} (l : List α) (i : ℕ) (b : α) (h : l.get? i = some b) :
    npIndex l i = Except.ok b := by
  unfold npIndex
  rw [h]
  rfl

theorem npIndex_err {α : Type} (l : List α) (i : ℕ) (h : l.get? i = none) :
    npIndex l i = Except.error PyError.indexError := by
  unfold npIndex
  rw [h]
  rfl

theorem getD_eq_get? {α : Type} (l : List α) (n : ℕ) (d : α) :
    l.getD n d = (l.get? n).getD d := rfl

theorem get?_eq_some_getD {α : Type} (l : List α) (n : ℕ) (d : α) (h : n < l.length) :
    l.get? n = some (l.getD n d) := by
  rw [getD_eq_get?]
  cases hc : l.get? n with
  | none => exact absurd (List.get?_eq_none.mp hc) (by omega)
  | some v => rfl

theorem getD_map_range {α : Type} (n i : ℕ) (f : ℕ → α) (hi : i < n) (x : α) :
    ((List.range n).map f).getD i x = f i := by
  rw [getD_eq_get?, List.get?_map, List.get?_range hi]
  rfl

theorem exceptMapList_ok {α β : Type} (f : α → PyResult β) (g : α → β) :
    ∀ l : List α, (∀ a ∈ l, f a = Except.ok (g a)) →
      exceptMapList f l = Except.ok (l.map g) := by
  intro l
  induction l with
  | nil => intro _; rfl
  | cons a l ih =>
    intro h
    unfold exceptMapList
    rw [h a (by simp), pyBind_ok, ih (fun b hb => h b (by simp [hb])), pyBind_ok]
    rfl

theorem exceptMapList_cons_err {α β : Type} (f : α → PyResult β) (a : α) (l : List α)
    (e : PyError) (h : f a = Except.error e) :
    exceptMapList f (a :: l) = Except.error e := by
  unfold exceptMapList
  rw [h, pyBind_err]

theorem dcfAdjust_length (l : List ℝ) : (dcfAdjust l).length = l.length := by
  unfold dcfAdjust
  split <;> simp

theorem dcfProj_ok (fcf : List ℝ) (r1 : ℝ) (z : ℕ → ℝ) (b : ℝ) (hb : fcf.get? 9 = some b) :
    dcfProj fcf r1 z = Except.ok ((List.range 10).map
      (fun j => b * (1 + r1) ^ (j + 1) + np_std_ddof1 fcf * z j)) := by
  unfold dcfProj
  rw [npIndex_ok _ _ _ hb, pyBind_ok]
  rfl

theorem dcfProj_err (fcf : List ℝ) (r1 : ℝ) (z : ℕ → ℝ) (h : fcf.get? 9 = none) :
    dcfProj fcf r1 z = Except.error PyError.indexError := by
  unfold dcfProj
  rw [npIndex_err _ _ h, pyBind_err]

theorem dcfTrial_ok (fcf : List ℝ) (r1 r2 dd d sh : ℝ) (z1 z2 : ℕ → ℝ)
    (h9 : 9 < fcf.length) :
    dcfTrial fcf r1 r2 dd d sh z1 z2
      = Except.ok (dcfTrialVal fcf r1 r2 dd sh z1 z2, dcfTrialVal fcf r1 r2 d sh z1 z2) := by
  unfold dcfTrial
  rw [dcfProj_ok fcf r1 z1 (fcf.getD 9 0) (get?_eq_some_getD fcf 9 0 h9), pyBind_ok]
  rfl

theorem dcfTrial_err (fcf : List ℝ) (r1 r2 dd d sh : ℝ) (z1 z2 : ℕ → ℝ)
    (h : fcf.get? 9 = none) :
    dcfTrial fcf r1 r2 dd d sh z1 z2 = Except.error PyError.indexError := by
  unfold dcfTrial
  rw [dcfProj_err fcf r1 z1 h, pyBind_err]

theorem dcf_ok (fcf0 : List ℝ) (r1 r2 discount shares beta : ℝ) (z1 z2 : ℕ → ℕ → ℝ)
    (h : 10 ≤ fcf0.length) :
    discount_cash_flow fcf0 r1 r2 discount shares beta z1 z2 = Except.ok
      (cagr_claimed fcf0,
       (List.range 100).map
         (fun i => dcfTrialVal (dcfAdjust fcf0) r1 r2 discount shares (z1 i) (z2 i)),
       (List.range 100).map
         (fun i => dcfTrialVal (dcfAdjust fcf0) r1 r2 ((2.5 + beta * (9.11 - 2.5)) / 100)
           shares (z1 i) (z2 i))) := by
  have h9 : 9 < (dcfAdjust fcf0).length := by rw [dcfAdjust_length]; omega
  unfold discount_cash_flow
  dsimp only
  rw [npIndex_ok _ _ _ (get?_eq_some_getD fcf0 0 0 (by omega)), pyBind_ok]
  rw [show (if fcf0.getD 0 0 < 0 then fcf0.set 0 (listMeanR fcf0) else fcf0)
    = dcfAdjust fcf0 from rfl]
  unfold pyDivNat
  rw [if_neg (show ¬(fcf0.length - 1 = 0) by omega), pyBind_pure]
  rw [exceptMapList_ok _
    (fun i => (dcfTrialVal (dcfAdjust fcf0) r1 r2 discount shares (z1 i) (z2 i),
      dcfTrialVal (dcfAdjust fcf0) r1 r2 ((2.5 + beta * (9.11 - 2.5)) / 100) shares
        (z1 i) (z2 i)))
    (List.range 100)
    (fun i _ => dcfTrial_ok (dcfAdjust fcf0) r1 r2 discount
      ((2.5 + beta * (9.11 - 2.5)) / 100) shares (z1 i) (z2 i) h9), pyBind_ok]
  rw [List.map_map, List.map_map]
  refine congrArg Except.ok (Prod.ext ?_ rfl)
  dsimp only
  unfold cagr_claimed
  dsimp only
  rw [dcfAdjust_length, Nat.cast_sub (show 1 ≤ fcf0.length by omega)]
  norm_num

theorem dcf_err_zero (fcf0 : List ℝ) (r1 r2 discount shares beta : ℝ) (z1 z2 : ℕ → ℕ → ℝ)
    (h : fcf0.get? 0 = none) :
    discount_cash_flow fcf0 r1 r2 discount shares beta z1 z2
      = Except.error PyError.indexError := by
  unfold discount_cash_flow
  dsimp only
  rw [npIndex_err _ _ h, pyBind_err]

theorem dcf_err_one (fcf0 : List ℝ) (r1 r2 discount shares beta : ℝ) (z1 z2 : ℕ → ℕ → ℝ)
    (h1 : fcf0.length = 1) :
    discount_cash_flow fcf0 r1 r2 discount shares beta z1 z2
      = Except.error PyError.zeroDivisionError := by
  unfold discount_cash_flow
  dsimp only
  rw [npIndex_ok _ _ _ (get?_eq_some_getD fcf0 0 0 (by omega)), pyBind_ok]
  unfold pyDivNat
  rw [if_pos (show fcf0.length - 1 = 0 by omega), pyThrow, pyBind_err]

theorem dcf_err_short (fcf0 : List ℝ) (r1 r2 discount shares beta : ℝ) (z1 z2 : ℕ → ℕ → ℝ)
    (h2 : 2 ≤ fcf0.length) (h9 : fcf0.length ≤ 9) :
    discount_cash_flow fcf0 r1 r2 discount shares beta z1 z2
      = Except.error PyError.indexError := by
  have h9n : (dcfAdjust fcf0).get? 9 = none :=
    List.get?_eq_none.mpr (by rw [dcfAdjust_length]; omega)
  have hr : List.range 100 = 0 :: (List.range 99).map Nat.succ := List.range_succ_eq_map 99
  unfold discount_cash_flow
  dsimp only
  rw [npIndex_ok _ _ _ (get?_eq_some_getD fcf0 0 0 (by omega)), pyBind_ok]
  rw [show (if fcf0.getD 0 0 < 0 then fcf0.set 0 (listMeanR fcf0) else fcf0)
    = dcfAdjust fcf0 from rfl]
  unfold pyDivNat
  rw [if_neg (show ¬(fcf0.length - 1 = 0) by omega), pyBind_pure]
  rw [hr, exceptMapList_cons_err
    (fun i => dcfTrial (dcfAdjust fcf0) r1 r2 discount ((2.5 + beta * (9.11 - 2.5)) / 100)
      shares (z1 i) (z2 i)) 0 ((List.range 99).map Nat.succ) PyError.indexError
    (dcfTrial_err (dcfAdjust fcf0) r1 r2 discount ((2.5 + beta * (9.11 - 2.5)) / 100)
      shares (z1 0) (z2 0) h9n), pyBind_err]

theorem dcfCagrExcept_ok (fcf0 : List ℝ) (h : 10 ≤ fcf0.length) :
    dcfCagrExcept fcf0 = Except.ok (cagr_claimed fcf0) := by
  unfold dcfCagrExcept
  dsimp only
  rw [npIndex_ok _ _ _ (get?_eq_some_getD fcf0 0 0 (by omega)), pyBind_ok]
  rw [show (if fcf0.getD 0 0 < 0 then fcf0.set 0 (listMeanR fcf0) else fcf0)
    = dcfAdjust fcf0 from rfl]
  unfold pyDivNat
  rw [if_neg (show ¬(fcf0.length - 1 = 0) by omega), pyBind_pure]
  rw [npIndex_ok _ _ _ (get?_eq_some_getD (dcfAdjust fcf0) 9 0
    (by rw [dcfAdjust_length]; omega)), pyBind_ok]
  refine congrArg Except.ok ?_
  unfold cagr_claimed
  dsimp only
  rw [dcfAdjust_length, Nat.cast_sub (show 1 ≤ fcf0.length by omega)]
  norm_num

theorem dcfCagrExcept_err_zero (fcf0 : List ℝ) (h : fcf0.get? 0 = none) :
    dcfCagrExcept fcf0 = Except.error PyError.indexError := by
  unfold dcfCagrExcept
  dsimp only
  rw [npIndex_err _ _ h, pyBind_err]

theorem dcfCagrExcept_err_one (fcf0 : List ℝ) (h1 : fcf0.length = 1) :
    dcfCagrExcept fcf0 = Except.error PyError.zeroDivisionError := by
  unfold dcfCagrExcept
  dsimp only
  rw [npIndex_ok _ _ _ (get?_eq_some_getD fcf0 0 0 (by omega)), pyBind_ok]
  unfold pyDivNat
  rw [if_pos (show fcf0.length - 1 = 0 by omega), pyThrow, pyBind_err]

theorem dcfCagrExcept_err_short (fcf0 : List ℝ) (h2 : 2 ≤ fcf0.length)
    (h9 : fcf0.length ≤ 9) :
    dcfCagrExcept fcf0 = Except.error PyError.indexError := by
  have h9n : (dcfAdjust fcf0).get? 9 = none :=
    List.get?_eq_none.mpr (by rw [dcfAdjust_length]; omega)
  unfold dcfCagrExcept
  dsimp only
  rw [npIndex_ok _ _ _ (get?_eq_some_getD fcf0 0 0 (by omega)), pyBind_ok]
  rw [show (if fcf0.getD 0 0 < 0 then fcf0.set 0 (listMeanR fcf0) else fcf0)
    = dcfAdjust fcf0 from rfl]
  unfold pyDivNat
  rw [if_neg (show ¬(fcf0.length - 1 = 0) by omega), pyBind_pure]
  rw [npIndex_err _ _ h9n, pyBind_err]

theorem dcf_map_fst (fcf0 : List ℝ) (r1 r2 discount shares beta : ℝ) (z1 z2 : ℕ → ℕ → ℝ) :
    (discount_cash_flow fcf0 r1 r2 discount shares beta z1 z2).map (fun r => r.1)
      = dcfCagrExcept fcf0 := by
  rcases Nat.lt_or_ge fcf0.length 1 with h0 | h1
  · have h : fcf0.get? 0 = none := List.get?_eq_none.mpr (by omega)
    rw [dcf_err_zero _ _ _ _ _ _ _ _ h, pyMap_err, dcfCagrExcept_err_zero _ h]
  · rcases Nat.lt_or_ge fcf0.length 2 with h2 | h3
    · rw [dcf_err_one _ _ _ _ _ _ _ _ (by omega), pyMap_err,
        dcfCagrExcept_err_one _ (by omega)]
    · rcases Nat.lt_or_ge fcf0.length 10 with h9 | h10
      · rw [dcf_err_short _ _ _ _ _ _ _ _ h3 (by omega), pyMap_err,
          dcfCagrExcept_err_short _ h3 (by omega)]
      · rw [dcf_ok _ _ _ _ _ _ _ _ h10, pyMap_ok, dcfCagrExcept_ok _ h10]

/-
Claim theorems for the discounted-cash-flow estimator.
-/

/-- C3 amended: in every simulation trial the first 10 projected values
compound `fcf[9]` (the TENTH observation, equal to the most recent one only
for a history of exactly 10 entries, not in general the last element), at
rate `proj_rate1` for years 1..10, each point perturbed by a draw scaled by
the Bessel-corrected (divisor n-1) sample standard deviation of the series
the loop works on. -/
theorem claim_C3_amended (fcf : List ℝ) (proj_rate1 : ℝ) (z : ℕ → ℝ) (b : ℝ)
    (hb : fcf.get? 9 = some b) :
    dcfProj fcf proj_rate1 z = Except.ok ((List.range 10).map
      (fun j => b * (1 + proj_rate1) ^ (j + 1) + np_std_ddof1 fcf * z j)) :=
  dcfProj_ok fcf proj_rate1 z b hb

theorem claim_C3_witness :
    ([1, 1, 1, 1, 1, 1, 1, 1, 1, 1, 2] : List ℝ).get? 9 = some 1 ∧
      dcfProj [1, 1, 1, 1, 1, 1, 1, 1, 1, 1, 2] (1 / 2) (fun _ => 1)
        = Except.ok ((List.range 10).map
          (fun j => 1 * (1 + 1 / 2) ^ (j + 1)
            + np_std_ddof1 [1, 1, 1, 1, 1, 1, 1, 1, 1, 1, 2] * 1)) :=
  ⟨rfl, claim_C3_amended _ _ _ 1 rfl⟩

/-- C3 counterexample: on the 11-entry history [1,...,1,2] (zero noise, zero
growth rate), line 34 projects from `fcf[9] = 1`, giving ten values equal
to 1, whereas the claim's description (compounding the most recent, i.e.
LAST, historical observation, which is 2) would give ten values equal to 2. -/
theorem claim_C3_cex :
    dcfProj [1, 1, 1, 1, 1, 1, 1, 1, 1, 1, 2] 0 (fun _ => 0)
        = Except.ok (List.replicate 10 (1 : ℝ)) ∧
      List.replicate 10 (1 : ℝ)
        ≠ dcfProj_claimed [1, 1, 1, 1, 1, 1, 1, 1, 1, 1, 2] 0 (fun _ => 0) := by
  constructor
  · rw [dcfProj_ok [1, 1, 1, 1, 1, 1, 1, 1, 1, 1, 2] 0 (fun _ => 0) 1 rfl]
    refine congrArg Except.ok ?_
    refine List.eq_replicate.mpr ⟨by simp, ?_⟩
    intro b hb
    simp only [List.mem_map, List.mem_range] at hb
    obtain ⟨j, hj, rfl⟩ := hb
    norm_num
  · intro hEq
    have h0 : (List.replicate 10 (1 : ℝ)).getD 0 0
        = (dcfProj_claimed [1, 1, 1, 1, 1, 1, 1, 1, 1, 1, 2] 0 (fun _ => 0)).getD 0 0 := by
      rw [hEq]
    rw [show (List.replicate 10 (1 : ℝ)).getD 0 0 = 1 from rfl] at h0
    unfold dcfProj_claimed at h0
    rw [getD_map_range 10 0 _ (by norm_num) 0] at h0
    rw [show ([1, 1, 1, 1, 1, 1, 1, 1, 1, 1, 2] : List ℝ).getD
      (([1, 1, 1, 1, 1, 1, 1, 1, 1, 1, 2] : List ℝ).length - 1) 0 = 2 from rfl] at h0
    norm_num at h0

/-- C4 amended: `discount_cash_flow` returns normally exactly when the
history has at least 10 entries (not 11): for shorter histories it raises
(IndexError reading `fcf[0]` or `fcf[9]`, ZeroDivisionError computing `1.0/n`
for a single-entry history), while a length-10 history succeeds, and neither
non-positive `shares` nor non-finite values are checked or cause an error. -/
theorem claim_C4_amended (fcf0 : List ℝ) (r1 r2 discount shares beta : ℝ)
    (z1 z2 : ℕ → ℕ → ℝ) :
    (∃ r, discount_cash_flow fcf0 r1 r2 discount shares beta z1 z2 = Except.ok r)
      ↔ 10 ≤ fcf0.length := by
  constructor
  · rintro ⟨r, hr⟩
    by_contra hlen
    rcases Nat.lt_or_ge fcf0.length 1 with h0 | h1
    · rw [dcf_err_zero _ _ _ _ _ _ _ _ (List.get?_eq_none.mpr (by omega))] at hr
      exact absurd hr (by simp)
    · rcases Nat.lt_or_ge fcf0.length 2 with h2 | h3
      · rw [dcf_err_one _ _ _ _ _ _ _ _ (by omega)] at hr
        exact absurd hr (by simp)
      · rw [dcf_err_short _ _ _ _ _ _ _ _ h3 (by omega)] at hr
        exact absurd hr (by simp)
  · intro h
    exact ⟨_, dcf_ok fcf0 r1 r2 discount shares beta z1 z2 h⟩

/-- C4 counterexample: a history of exactly 10 entries with shares = -1
(both of which the claim says must make the call fail) returns normally. -/
theorem claim_C4_cex :
    ∃ r, discount_cash_flow [1, 2, 3, 4, 5, 6, 7, 8, 9, 10] 0 0 0 (-1) 0
      (fun _ _ => 0) (fun _ _ => 0) = Except.ok r :=
  ⟨_, dcf_ok [1, 2, 3, 4, 5, 6, 7, 8, 9, 10] 0 0 0 (-1) 0 _ _ (by norm_num)⟩

/-- C6: for every history of valid length, the cagr returned by
`discount_cash_flow` equals `(last/first)^(1/(n-1)) - 1` with `n` the series
length, where a negative earliest observation is first replaced by the
arithmetic mean of the full history. -/
theorem claim_C6_cagr (fcf0 : List ℝ) (r1 r2 discount shares beta : ℝ)
    (z1 z2 : ℕ → ℕ → ℝ) (h : 10 ≤ fcf0.length) :
    (discount_cash_flow fcf0 r1 r2 discount shares beta z1 z2).map (fun r => r.1)
      = Except.ok (cagr_claimed fcf0) := by
  rw [dcf_ok _ _ _ _ _ _ _ _ h, pyMap_ok]

theorem claim_C6_witness :
    10 ≤ ([1, 2, 3, 4, 5, 6, 7, 8, 9, 10, 11] : List ℝ).length ∧
      (discount_cash_flow [1, 2, 3, 4, 5, 6, 7, 8, 9, 10, 11] (1 / 10) (1 / 20) (1 / 10) 5 1
        (fun _ _ => 0) (fun _ _ => 0)).map (fun r => r.1)
        = Except.ok (cagr_claimed [1, 2, 3, 4, 5, 6, 7, 8, 9, 10, 11]) :=
  ⟨by norm_num, claim_C6_cagr _ _ _ _ _ _ _ _ (by norm_num)⟩

/-- C7: for every valid input, `discount_cash_flow` performs 100 trials and
returns two length-100 arrays; the estimate stored at position i is the sum
of the 20 concatenated projected values of trial i discounted at period
indices 1..20 (under, in parallel, the user discount rate and the CAPM rate
`(2.5 + beta*(9.11 - 2.5))/100`), divided by `shares`. -/
theorem claim_C7_trials (fcf0 : List ℝ) (r1 r2 discount shares beta : ℝ)
    (z1 z2 : ℕ → ℕ → ℝ) (h : 10 ≤ fcf0.length) :
    ∃ c v1 v2,
      discount_cash_flow fcf0 r1 r2 discount shares beta z1 z2 = Except.ok (c, v1, v2) ∧
      v1.length = 100 ∧ v2.length = 100 ∧
      (∀ i, i < 100 →
        v1.getD i 0 = dcfTrialVal (dcfAdjust fcf0) r1 r2 discount shares (z1 i) (z2 i) ∧
        v2.getD i 0 = dcfTrialVal (dcfAdjust fcf0) r1 r2
          ((2.5 + beta * (9.11 - 2.5)) / 100) shares (z1 i) (z2 i)) := by
  refine ⟨cagr_claimed fcf0, _, _, dcf_ok fcf0 r1 r2 discount shares beta z1 z2 h,
    by simp, by simp, ?_⟩
  intro i hi
  exact ⟨getD_map_range 100 i _ hi 0, getD_map_range 100 i _ hi 0⟩

theorem claim_C7_witness :
    10 ≤ ([2, 2, 2, 2, 2, 2, 2, 2, 2, 2] : List ℝ).length ∧
      (∃ c v1 v2,
        discount_cash_flow [2, 2, 2, 2, 2, 2, 2, 2, 2, 2] 0 0 0 1 0
          (fun _ _ => 0) (fun _ _ => 0) = Except.ok (c, v1, v2) ∧
        v1.length = 100 ∧ v2.length = 100 ∧
        (∀ i, i < 100 →
          v1.getD i 0 = dcfTrialVal (dcfAdjust [2, 2, 2, 2, 2, 2, 2, 2, 2, 2]) 0 0 0 1
            (fun _ => 0) (fun _ => 0) ∧
          v2.getD i 0 = dcfTrialVal (dcfAdjust [2, 2, 2, 2, 2, 2, 2, 2, 2, 2]) 0 0
            ((2.5 + 0 * (9.11 - 2.5)) / 100) 1 (fun _ => 0) (fun _ => 0))) :=
  ⟨by norm_num, claim_C7_trials _ 0 0 0 1 0 _ _ (by norm_num)⟩

/-- C9: for any two calls with the same history but arbitrarily different
rates, discount, shares, beta and random draws, the cagr component of the
result (value or raised error alike) is identical: it depends on the history
alone. -/
theorem claim_C9_cagr_invariant (fcf0 : List ℝ)
    (r1 r2 discount shares beta r1' r2' discount' shares' beta' : ℝ)
    (z1 z2 z1' z2' : ℕ → ℕ → ℝ) :
    (discount_cash_flow fcf0 r1 r2 discount shares beta z1 z2).map (fun r => r.1)
      = (discount_cash_flow fcf0 r1' r2' discount' shares' beta' z1' z2').map
        (fun r => r.1) := by
  rw [dcf_map_fst, dcf_map_fst]

theorem claim_C10_witness :
    (0 : ℚ) < 1 ∧ (1 : ℚ) < 2 ∧ (-1 : ℚ) < 0 ∧ (0 : ℚ) < 1 / 4 ∧ (1 / 4 : ℚ) < 1 / 2 ∧
      (1 / 2 : ℚ) < 1 ∧
      ((∀ v w, gordon_growth_model 1 0 (1 / 2) = Except.ok v →
        gordon_growth_model 2 0 (1 / 2) = Except.ok w → v < w) ∧
      (∀ v w, gordon_growth_model 1 0 (1 / 2) = Except.ok v →
        gordon_growth_model 1 (1 / 4) (1 / 2) = Except.ok w → v < w) ∧
      (∀ v w, gordon_growth_model 1 0 (1 / 2) = Except.ok v →
        gordon_growth_model 1 0 1 = Except.ok w → w < v)) :=
  ⟨by norm_num, by norm_num, by norm_num, by norm_num, by norm_num, by norm_num,
    claim_C10_gordon_monotone 1 2 0 (1 / 4) (1 / 2) 1 (by norm_num) (by norm_num)
      (by norm_num) (by norm_num) (by norm_num) (by norm_num)⟩

end StockAnalyzer
